import Mathlib

/-!
Verification development for the Backhaul reverse-tunnel core.

The definitions below are a shallow embedding of the Go sources:
  src/internal/utils/signals.go          (signal alphabet)
  src/internal/client/transport/tcp.go   (TCP client: pool sizer, channel handler, Restart)
  src/unnamed/part_000                   (TCP server: channel handler, dispatcher, Restart)
  src/internal/server/transport/tcpmux.go (TCPMux server: mux sessions, dispatcher)
  src/unnamed/part_001                   (WSMux server: dispatcher)
Pure control decisions become Lean functions; channel interactions are
modelled by explicit state or by event lists; Go int arithmetic on
non-negative counters is modelled with Nat, pool sizes with Int.
-/

namespace Backhaul

/-! ## Signal alphabet (src/internal/utils/signals.go, iota starting at 0) -/

def SG_HB : Nat := 0

def SG_Chan : Nat := 1

def SG_Ping : Nat := 2

def SG_Closed : Nat := 3

def SG_TCP : Nat := 4

def SG_UDP : Nat := 5

/-! ## Client pool sizer (tcp.go, poolMaintainer)

State carried across ticker events: the adaptive target size
`newPoolSize` (Go int, starts at ConnPoolSize), the `loadConnections`
counter and the `poolConnectionsSum` accumulator (int32 atomics,
non-negative in every reachable state, modelled as Nat). -/

structure PoolSizerState where
  newPoolSize : Int
  loadConnections : Nat
  poolConnectionsSum : Nat
deriving Repr, DecidableEq

/-- Adjustment decided at a window close: `grow` spawns one tunnelDialer,
`shrink` sends one token on controlFlow, `stay` does neither. -/
inductive PoolAdjust where
  | grow
  | shrink
  | stay
deriving Repr, DecidableEq

/-- Initial sizer state (tcp.go line 180: newPoolSize starts at ConnPoolSize;
both accumulators start at 0). -/
def poolSizerInit (connPoolSize : Int) : PoolSizerState :=
  ⟨connPoolSize, 0, 0⟩

/-- One-second tick (tcp.go line 190): add the sampled poolConnections
gauge into the running sum. -/
def tickerPoolStep (st : PoolSizerState) (poolConnections : Nat) : PoolSizerState :=
  ⟨st.newPoolSize, st.loadConnections, st.poolConnectionsSum + poolConnections⟩

/-- Sixty-second window close (tcp.go lines 192-214): divide both
accumulators by 60 with the +59 ceiling form, reset them, then compare
`(loadConnections+4)/5` and `(loadConnections+3)/4` against the pool
average to grow or shrink the target size. -/
def tickerLoadStep (connPoolSize : Int) (st : PoolSizerState) :
    PoolSizerState × PoolAdjust :=
  let loadConnections := (st.loadConnections + 59) / 60
  let poolConnectionsAvg := (st.poolConnectionsSum + 59) / 60
  if (loadConnections + 4) / 5 > poolConnectionsAvg then
    (⟨st.newPoolSize + 1, 0, 0⟩, PoolAdjust.grow)
  else if (loadConnections + 3) / 4 < poolConnectionsAvg ∧ st.newPoolSize > connPoolSize then
    (⟨st.newPoolSize - 1, 0, 0⟩, PoolAdjust.shrink)
  else
    (⟨st.newPoolSize, 0, 0⟩, PoolAdjust.stay)

/-- Events that touch the sizer state while the control channel is
established: a REQ_CHAN arrival increments loadConnections
(tcp.go line 250), the one-second ticker samples the pool gauge, the
sixty-second ticker closes a window. -/
inductive SizerEvent where
  | reqChanSignal
  | tickPool (pool : Nat)
  | tickLoad
deriving Repr, DecidableEq

def sizerStep (connPoolSize : Int) (st : PoolSizerState) : SizerEvent → PoolSizerState
  | SizerEvent.reqChanSignal => ⟨st.newPoolSize, st.loadConnections + 1, st.poolConnectionsSum⟩
  | SizerEvent.tickPool p => tickerPoolStep st p
  | SizerEvent.tickLoad => (tickerLoadStep connPoolSize st).1

def sizerRun (connPoolSize : Int) (evs : List SizerEvent) : PoolSizerState :=
  evs.foldl (sizerStep connPoolSize) (poolSizerInit connPoolSize)

/-! ## Ceiling division characterisation

`isCeilDiv x d v` says that `v` is the exact ceiling of the rational
`x / d`: it is an upper multiple bound and the least such. -/

def isCeilDiv (x d v : Nat) : Prop :=
  x ≤ d * v ∧ ∀ m, x ≤ d * m → v ≤ m

lemma isCeilDiv_add_pred_div (x d : Nat) (hd : 0 < d) :
    isCeilDiv x d ((x + d - 1) / d) := by
  constructor
  · have h1 := Nat.div_add_mod (x + d - 1) d
    have h2 : (x + d - 1) % d < d := Nat.mod_lt _ hd
    omega
  · intro m hm
    have h4 : x + d ≤ d * m + d := Nat.add_le_add_right hm d
    have h5 : (x + d - 1) / d < m + 1 := by
      rw [Nat.div_lt_iff_lt_mul hd, Nat.succ_mul]
      rw [Nat.mul_comm d m] at h4
      omega
    omega

lemma isCeilDiv_unique {x d v w : Nat} (hv : isCeilDiv x d v) (hw : isCeilDiv x d w) :
    v = w :=
  Nat.le_antisymm (hv.2 w hw.1) (hw.2 v hv.1)

lemma eq_add_pred_div_of_isCeilDiv {x d v : Nat} (hd : 0 < d) (hv : isCeilDiv x d v) :
    v = (x + d - 1) / d :=
  isCeilDiv_unique hv (isCeilDiv_add_pred_div x d hd)

lemma tickerLoadStep_unfold (connPoolSize : Int) (st : PoolSizerState) :
    tickerLoadStep connPoolSize st =
      if (st.poolConnectionsSum + 59) / 60 < ((st.loadConnections + 59) / 60 + 4) / 5 then
        (⟨st.newPoolSize + 1, 0, 0⟩, PoolAdjust.grow)
      else if ((st.loadConnections + 59) / 60 + 3) / 4 < (st.poolConnectionsSum + 59) / 60 ∧
          connPoolSize < st.newPoolSize then
        (⟨st.newPoolSize - 1, 0, 0⟩, PoolAdjust.shrink)
      else
        (⟨st.newPoolSize, 0, 0⟩, PoolAdjust.stay) :=
  rfl

lemma sizerStep_pool_floor {connPoolSize : Int} {st : PoolSizerState}
    (h : connPoolSize ≤ st.newPoolSize) (e : SizerEvent) :
    connPoolSize ≤ (sizerStep connPoolSize st e).newPoolSize := by
  cases e with
  | reqChanSignal => exact h
  | tickPool p => exact h
  | tickLoad =>
      simp only [sizerStep, tickerLoadStep]
      split_ifs with h1 h2
      · simp only [PoolSizerState.newPoolSize]
        omega
      · simp only [PoolSizerState.newPoolSize]
        omega
      · exact h

lemma sizerFoldl_pool_floor (connPoolSize : Int) (evs : List SizerEvent) :
    ∀ st : PoolSizerState, connPoolSize ≤ st.newPoolSize →
      connPoolSize ≤ (evs.foldl (sizerStep connPoolSize) st).newPoolSize := by
  induction evs with
  | nil => intro st h; exact h
  | cons e rest ih =>
      intro st h
      exact ih (sizerStep connPoolSize st e) (sizerStep_pool_floor h e)

/-- C1: at each sixty-second window close the pool maintainer computes
`avg_load = ceil(loadConnections / 60)` and
`avg_pool = ceil(poolConnectionsSum / 60)` (the code forms `(x+59)/60`,
`(l+4)/5`, `(l+3)/4` are exactly these ceilings), resets both
accumulators to zero, and then: if `ceil(avg_load/5) > avg_pool` it
increments the target pool size and spawns exactly one tunnel-dial task;
else if `ceil(avg_load/4) < avg_pool` and the target exceeds
ConnPoolSize it decrements the target; otherwise nothing changes. -/
theorem poolMaintainer_window_close_spec (connPoolSize : Int) (st : PoolSizerState)
    (avgLoad avgPool g5 g4 : Nat)
    (hL : isCeilDiv st.loadConnections 60 avgLoad)
    (hP : isCeilDiv st.poolConnectionsSum 60 avgPool)
    (h5 : isCeilDiv avgLoad 5 g5)
    (h4 : isCeilDiv avgLoad 4 g4) :
    (tickerLoadStep connPoolSize st).1.loadConnections = 0 ∧
    (tickerLoadStep connPoolSize st).1.poolConnectionsSum = 0 ∧
    (avgPool < g5 →
      tickerLoadStep connPoolSize st = (⟨st.newPoolSize + 1, 0, 0⟩, PoolAdjust.grow)) ∧
    (¬ avgPool < g5 → g4 < avgPool → connPoolSize < st.newPoolSize →
      tickerLoadStep connPoolSize st = (⟨st.newPoolSize - 1, 0, 0⟩, PoolAdjust.shrink)) ∧
    (¬ avgPool < g5 → ¬ (g4 < avgPool ∧ connPoolSize < st.newPoolSize) →
      tickerLoadStep connPoolSize st = (⟨st.newPoolSize, 0, 0⟩, PoolAdjust.stay)) := by
  have eL := eq_add_pred_div_of_isCeilDiv (by norm_num : (0:Nat) < 60) hL
  have eP := eq_add_pred_div_of_isCeilDiv (by norm_num : (0:Nat) < 60) hP
  have e5 := eq_add_pred_div_of_isCeilDiv (by norm_num : (0:Nat) < 5) h5
  have e4 := eq_add_pred_div_of_isCeilDiv (by norm_num : (0:Nat) < 4) h4
  have n60 : st.loadConnections + 60 - 1 = st.loadConnections + 59 := by omega
  have n60b : st.poolConnectionsSum + 60 - 1 = st.poolConnectionsSum + 59 := by omega
  have n5 : avgLoad + 5 - 1 = avgLoad + 4 := by omega
  have n4 : avgLoad + 4 - 1 = avgLoad + 3 := by omega
  rw [n5] at e5
  rw [n4] at e4
  rw [n60] at eL
  rw [n60b] at eP
  subst e5 e4 eL eP
  refine ⟨?_, ?_, ?_, ?_, ?_⟩
  · rw [tickerLoadStep_unfold]
    split_ifs <;> rfl
  · rw [tickerLoadStep_unfold]
    split_ifs <;> rfl
  · intro hgt
    rw [tickerLoadStep_unfold, if_pos hgt]
  · intro hng hlt hsz
    rw [tickerLoadStep_unfold, if_neg hng, if_pos ⟨hlt, hsz⟩]
  · intro hng hnand
    rw [tickerLoadStep_unfold, if_neg hng, if_neg hnand]

/-- Witness for C1: a concrete window with loadConnections = 600 and
poolConnectionsSum = 0 grows the pool from 1 to 2 and spawns one dial
task. -/
theorem poolMaintainer_window_close_spec_witness :
    tickerLoadStep 1 ⟨1, 600, 0⟩ = (⟨2, 0, 0⟩, PoolAdjust.grow) := by
  have hL : isCeilDiv (600:Nat) 60 10 := by
    have h := isCeilDiv_add_pred_div 600 60 (by norm_num)
    norm_num at h
    exact h
  have hP : isCeilDiv (0:Nat) 60 0 := by
    have h := isCeilDiv_add_pred_div 0 60 (by norm_num)
    norm_num at h
    exact h
  have h5 : isCeilDiv (10:Nat) 5 2 := by
    have h := isCeilDiv_add_pred_div 10 5 (by norm_num)
    norm_num at h
    exact h
  have h4 : isCeilDiv (10:Nat) 4 3 := by
    have h := isCeilDiv_add_pred_div 10 4 (by norm_num)
    norm_num at h
    exact h
  exact (poolMaintainer_window_close_spec 1 ⟨1, 600, 0⟩ 10 0 2 3 hL hP h5 h4).2.2.1
    (by norm_num)

/-- C4: in every reachable state of the pool sizer the adaptive target
pool size stays at or above the configured minimum ConnPoolSize: it
starts there, grows are unconditional, and a shrink fires only when the
target strictly exceeds the minimum. -/
theorem poolMaintainer_size_floor (connPoolSize : Int) (evs : List SizerEvent) :
    connPoolSize ≤ (sizerRun connPoolSize evs).newPoolSize :=
  sizerFoldl_pool_floor connPoolSize evs (poolSizerInit connPoolSize) le_rfl

/-! ## Control channel consumers (tcp.go channelHandler; part_000 and
tcpmux.go channelHandler) -/

/-- Client dispatch of one received signal byte (tcp.go lines 248-268):
SG_Chan is handled, SG_HB is logged, SG_Closed restarts, and the default
branch restarts on any other byte. -/
inductive ClientSignalAction where
  | reqChan
  | heartbeat
  | restart
deriving Repr, DecidableEq

def clientSignalAction (msg : Nat) : ClientSignalAction :=
  if msg = SG_Chan then ClientSignalAction.reqChan
  else if msg = SG_HB then ClientSignalAction.heartbeat
  else if msg = SG_Closed then ClientSignalAction.restart
  else ClientSignalAction.restart

/-- Server dispatch of the one (message, error) result delivered by its
reader goroutine (part_000 lines 224-235, tcpmux.go lines 242-253): a
read error restarts, SG_Closed restarts, and any other byte falls
through with no action at all. -/
inductive ServerResultAction where
  | restart
  | ignore
deriving Repr, DecidableEq

def serverResultAction (message : Nat) (isErr : Bool) : ServerResultAction :=
  if isErr then ServerResultAction.restart
  else if message = SG_Closed then ServerResultAction.restart
  else ServerResultAction.ignore

/-- C2 counterexample: the server consumer does not restart on an
unknown signal byte; on byte 42 with no read error it silently ignores
the message and keeps looping, contradicting the claim that both peers
restart on every unknown byte. -/
theorem server_ignores_unknown_byte :
    serverResultAction 42 false = ServerResultAction.ignore := by
  decide

/-- C2 amended: the client restarts on every byte other than SG_Chan and
SG_HB (so on SG_Closed and on every unknown byte), while the server
consumer restarts only on a read error or on SG_Closed and ignores every
other byte, unknown bytes included. -/
theorem channelHandler_restart_amended :
    ∀ msg : Nat,
      (clientSignalAction msg = ClientSignalAction.restart ↔
        msg ≠ SG_Chan ∧ msg ≠ SG_HB) ∧
      ∀ e : Bool, (serverResultAction msg e = ServerResultAction.restart ↔
        e = true ∨ msg = SG_Closed) := by
  intro msg
  constructor
  · unfold clientSignalAction
    split_ifs with h1 h2 h3 <;> simp_all [SG_Chan, SG_HB, SG_Closed]
  · intro e
    unfold serverResultAction
    split_ifs with h1 h2 <;> simp_all [SG_Closed]

/-- C9: the wire byte values of the signal alphabet are exactly HB = 0,
REQ_CHAN = 1, PING = 2, CLOSED = 3, TCP = 4, UDP = 5, and the six values
are pairwise distinct. -/
theorem signal_alphabet_values :
    SG_HB = 0 ∧ SG_Chan = 1 ∧ SG_Ping = 2 ∧ SG_Closed = 3 ∧
      SG_TCP = 4 ∧ SG_UDP = 5 ∧
      [SG_HB, SG_Chan, SG_Ping, SG_Closed, SG_TCP, SG_UDP].Nodup := by
  decide

/-- Server reader goroutine (part_000 lines 195-201, tcpmux.go lines
213-219): a single ReceiveBinaryByte on the control channel, one result
sent on resultChan, then the goroutine ends — there is no loop.
`inbound` is the full sequence of signal bytes the client writes over
the channel lifetime; an empty sequence stands for a read that fails,
delivered as an error result. -/
def serverReaderDeliveries (inbound : List Nat) : List (Nat × Bool) :=
  match inbound with
  | [] => [(0, true)]
  | b :: _ => [(b, false)]

/-- C10: over the lifetime of one established control channel the
server delivers and dispatches at most one inbound signal: the first
byte alone is delivered, and every byte the client sends after it is
never observed (the deliveries do not depend on the tail at all). -/
theorem serverReader_single_delivery (b : Nat) (rest : List Nat) :
    (serverReaderDeliveries (b :: rest)).length ≤ 1 ∧
    serverReaderDeliveries (b :: rest) = [(b, false)] ∧
    serverReaderDeliveries (b :: rest) = serverReaderDeliveries [b] ∧
    ((serverReaderDeliveries (b :: rest)).map
      (fun r => serverResultAction r.1 r.2)).length ≤ 1 ∧
    (serverReaderDeliveries []).length ≤ 1 := by
  simp [serverReaderDeliveries]

/-! ## Client REQ_CHAN handling and the controlFlow channel -/

/-- Capacity of the client controlFlow channel: it is created with
make and no buffer size, both in NewTCPClient (tcp.go line 59) and in
Restart (tcp.go line 98), hence unbuffered. -/
def controlFlowCapacity : Nat := 0

/-- Client handling of one SG_Chan signal (tcp.go lines 249-257): the
loadConnections counter is incremented, then a non-blocking receive on
controlFlow is attempted; a ready shrink token suppresses the dialer
spawn, otherwise exactly one tunnelDialer is spawned. Returns the new
counter and whether a dialer was spawned. -/
def clientHandleReqChan (loadConnections : Nat) (shrinkTokenReady : Bool) :
    Nat × Bool :=
  let load := loadConnections + 1
  if shrinkTokenReady then (load, false) else (load, true)

/-- C5 counterexample: the controlFlow (pool shrink) channel is
unbuffered in the source, so its capacity is 0 and not 1 as the claim
states. -/
theorem controlFlow_not_buffered : controlFlowCapacity ≠ 1 := by
  decide

/-- C5 amended: each REQ_CHAN increments load_observed by one and spawns
exactly one tunnel-dial task unless a shrink token is ready on
controlFlow; but controlFlow is unbuffered (capacity 0), so the sizer
blocks on its shrink send until the consumer performs the matching
receive. -/
theorem reqChan_spawn_amended :
    ∀ (load : Nat) (tok : Bool),
      (clientHandleReqChan load tok).1 = load + 1 ∧
      ((clientHandleReqChan load tok).2 = true ↔ tok = false) ∧
      controlFlowCapacity = 0 := by
  intro load tok
  cases tok <;> simp [clientHandleReqChan, controlFlowCapacity]

/-! ## Restart (tcp.go Restart; part_000 and tcpmux.go Restart) -/

inductive RestartAction where
  | cancelToken
  | closeControl
  | sleepTwoSeconds
  | freshToken
  | reinitState
  | reenterStart
deriving Repr, DecidableEq

/-- Client restart body (tcp.go lines 81-100): cancel the context when
set, sleep two seconds, derive a fresh context from the parent,
re-initialize the mutable fields, re-enter Start. The client never
closes the control channel socket. -/
def clientRestartBody (cancelSet : Bool) : List RestartAction :=
  (if cancelSet then [RestartAction.cancelToken] else []) ++
    [RestartAction.sleepTwoSeconds, RestartAction.freshToken,
     RestartAction.reinitState, RestartAction.reenterStart]

/-- Server restart body (part_000 lines 105-129, same shape in
tcpmux.go lines 123-148): cancel when set, close the control channel
when one is present, sleep two seconds, fresh context, re-initialize
the channels and fields, re-enter Start. -/
def serverRestartBody (cancelSet hasControl : Bool) : List RestartAction :=
  (if cancelSet then [RestartAction.cancelToken] else []) ++
    (if hasControl then [RestartAction.closeControl] else []) ++
    [RestartAction.sleepTwoSeconds, RestartAction.freshToken,
     RestartAction.reinitState, RestartAction.reenterStart]

/-- TryLock gate (tcp.go lines 75-78, part_000 lines 99-102): the body
runs only when the restart mutex is acquired; a second concurrent
caller only logs and returns, performing none of the actions. -/
def restartRun (body : List RestartAction) (lockAcquired : Bool) :
    List RestartAction :=
  if lockAcquired then body else []

/-- Client mutable fields touched by the re-initialization step
(tcp.go lines 93-98). -/
structure ClientMutState where
  controlChannelIsNil : Bool
  poolConnections : Int
  loadConnections : Int
  controlFlowFresh : Bool
deriving Repr, DecidableEq

/-- Client re-initialization (tcp.go lines 93-98): control channel
pointer reset to nil, both counters zeroed, controlFlow re-made. -/
def clientRestartReinit (_st : ClientMutState) : ClientMutState :=
  ⟨true, 0, 0, true⟩

/-- C3 counterexample: the client restart sequence never closes the
control channel connection; tcp.go Restart only drops the pointer,
contradicting the claim that both sides close the socket. -/
theorem client_restart_no_close :
    RestartAction.closeControl ∉ clientRestartBody true := by
  decide

/-- C3 amended: under an acquired restart mutex the server performs
cancel, close control channel, sleep two seconds, fresh token,
re-initialization, Start, in that order; the client performs the same
sequence except that it never closes the control channel socket (it
only resets the pointer to nil and zeroes the pool and load counters
while re-making controlFlow); a contending caller performs nothing. -/
theorem restart_sequence_amended :
    restartRun (serverRestartBody true true) true =
      [RestartAction.cancelToken, RestartAction.closeControl,
       RestartAction.sleepTwoSeconds, RestartAction.freshToken,
       RestartAction.reinitState, RestartAction.reenterStart] ∧
    restartRun (clientRestartBody true) true =
      [RestartAction.cancelToken, RestartAction.sleepTwoSeconds,
       RestartAction.freshToken, RestartAction.reinitState,
       RestartAction.reenterStart] ∧
    (∀ body, restartRun body false = []) ∧
    (∀ st, clientRestartReinit st = ⟨true, 0, 0, true⟩) := by
  exact ⟨rfl, rfl, fun _ => rfl, fun _ => rfl⟩

/-! ## Server dispatcher accept paths

Queue occupancies of the bounded localChannel and reqNewConnChan; a
non-blocking channel send succeeds exactly when the occupancy is below
the capacity ChannelSize. -/

structure QueueState where
  localLen : Nat
  reqLen : Nat
deriving Repr, DecidableEq

inductive AcceptOutcome where
  | dropped
  | enqueuedWithToken
  | enqueuedTokenDropped
  | enqueuedNoOffer
deriving Repr, DecidableEq

/-- Non-mux TCP server accept path (part_000 acceptLocalConn lines
387-403): non-blocking enqueue of the wrapped connection on
localChannel — on a full queue the connection is closed and dropped —
then, after a successful enqueue, a non-blocking offer of one token to
reqNewConnChan, dropped when that queue is full. -/
def tcpAcceptLocalConn (channelSize : Nat) (q : QueueState) :
    QueueState × AcceptOutcome :=
  if q.localLen < channelSize then
    if q.reqLen < channelSize then
      (⟨q.localLen + 1, q.reqLen + 1⟩, AcceptOutcome.enqueuedWithToken)
    else
      (⟨q.localLen + 1, q.reqLen⟩, AcceptOutcome.enqueuedTokenDropped)
  else
    (q, AcceptOutcome.dropped)

/-- TCPMux server accept path (tcpmux.go acceptLocalConn lines 419-426):
non-blocking enqueue on localChannel, close and drop on a full queue; no
token is offered to reqNewConnChan in this path. -/
def tcpmuxAcceptLocalConn (channelSize : Nat) (q : QueueState) :
    QueueState × AcceptOutcome :=
  if q.localLen < channelSize then
    (⟨q.localLen + 1, q.reqLen⟩, AcceptOutcome.enqueuedNoOffer)
  else
    (q, AcceptOutcome.dropped)

/-- WSMux server accept path (part_001 acceptLocalConn lines 374-381):
identical shape to the TCPMux path — non-blocking enqueue, drop when
full, and no reqNewConnChan offer. -/
def wsmuxAcceptLocalConn (channelSize : Nat) (q : QueueState) :
    QueueState × AcceptOutcome :=
  if q.localLen < channelSize then
    (⟨q.localLen + 1, q.reqLen⟩, AcceptOutcome.enqueuedNoOffer)
  else
    (q, AcceptOutcome.dropped)

/-- C6 counterexample: in the TCPMux server accept path a successful
enqueue (local queue empty, capacity 4) leaves the req_new_conn queue
untouched — no token is offered at all, contradicting the claim that
every server transport's accept path offers exactly one token after a
successful enqueue. -/
theorem mux_accept_no_req_token :
    (tcpmuxAcceptLocalConn 4 ⟨0, 0⟩).1.localLen = 1 ∧
    (tcpmuxAcceptLocalConn 4 ⟨0, 0⟩).1.reqLen = 0 := by
  decide

/-- C6 amended: every server transport drops (closes) the user
connection without blocking when the local queue is full; after a
successful enqueue the non-mux TCP server offers exactly one token to
req_new_conn non-blockingly, a full req_new_conn dropping (coalescing)
the token, while the TCPMux and WSMux accept paths make no
req_new_conn offer at all (their tokens come from session retirement
instead). -/
theorem accept_overflow_policy_amended :
    ∀ (cs : Nat) (q : QueueState),
      (¬ q.localLen < cs →
        tcpAcceptLocalConn cs q = (q, AcceptOutcome.dropped) ∧
        tcpmuxAcceptLocalConn cs q = (q, AcceptOutcome.dropped) ∧
        wsmuxAcceptLocalConn cs q = (q, AcceptOutcome.dropped)) ∧
      (q.localLen < cs →
        (q.reqLen < cs →
          tcpAcceptLocalConn cs q =
            (⟨q.localLen + 1, q.reqLen + 1⟩, AcceptOutcome.enqueuedWithToken)) ∧
        (¬ q.reqLen < cs →
          tcpAcceptLocalConn cs q =
            (⟨q.localLen + 1, q.reqLen⟩, AcceptOutcome.enqueuedTokenDropped)) ∧
        tcpmuxAcceptLocalConn cs q =
          (⟨q.localLen + 1, q.reqLen⟩, AcceptOutcome.enqueuedNoOffer) ∧
        wsmuxAcceptLocalConn cs q =
          (⟨q.localLen + 1, q.reqLen⟩, AcceptOutcome.enqueuedNoOffer)) := by
  intro cs q
  constructor
  · intro h
    refine ⟨?_, ?_, ?_⟩
    · unfold tcpAcceptLocalConn
      rw [if_neg h]
    · unfold tcpmuxAcceptLocalConn
      rw [if_neg h]
    · unfold wsmuxAcceptLocalConn
      rw [if_neg h]
  · intro h
    refine ⟨?_, ?_, ?_, ?_⟩
    · intro hr
      unfold tcpAcceptLocalConn
      rw [if_pos h, if_pos hr]
    · intro hr
      unfold tcpAcceptLocalConn
      rw [if_pos h, if_neg hr]
    · unfold tcpmuxAcceptLocalConn
      rw [if_pos h]
    · unfold wsmuxAcceptLocalConn
      rw [if_pos h]

/-! ## Mux session lifecycle (tcpmux.go handleSession / finalizeSession) -/

/-- Outcome of serving one parked user connection on the session:
OpenStream and the target-address write both succeed, OpenStream fails,
or OpenStream succeeds and the write fails. -/
inductive StreamEvent where
  | success
  | openFail
  | writeFail
deriving Repr, DecidableEq

/-- Streams opened on one mux session (tcpmux.go handleSession lines
447-488, identically part_001 lines 401-446), counted from `counter`
onwards: a success opens one stream and increments the counter,
finalizing the session when the counter reaches MuxCon; an open failure
ends the session with no new stream; a write failure ends it right
after the one stream just opened. -/
def handleSessionStreams (muxCon : Nat) : Nat → List StreamEvent → Nat
  | _, [] => 0
  | _, StreamEvent.openFail :: _ => 0
  | _, StreamEvent.writeFail :: _ => 1
  | counter, StreamEvent.success :: rest =>
      if counter + 1 = muxCon then 1
      else 1 + handleSessionStreams muxCon (counter + 1) rest

inductive FinalizeAction where
  | signalNext
  | offerReqChan
  | waitDone (n : Nat)
  | closeSession
deriving Repr, DecidableEq

/-- Retirement sequence (tcpmux.go finalizeSession lines 517-536):
signal handleLoop to take a fresh session, offer one REQ_CHAN token
non-blockingly, wait for all `counter` stream handlers to finish, and
close the session last. -/
def finalizeSessionActions (counter : Nat) : List FinalizeAction :=
  [FinalizeAction.signalNext, FinalizeAction.offerReqChan,
   FinalizeAction.waitDone counter, FinalizeAction.closeSession]

lemma handleSessionStreams_le (muxCon : Nat) :
    ∀ (evs : List StreamEvent) (counter : Nat), counter < muxCon →
      counter + handleSessionStreams muxCon counter evs ≤ muxCon := by
  intro evs
  induction evs with
  | nil =>
      intro c h
      simp only [handleSessionStreams]
      omega
  | cons e rest ih =>
      intro c h
      cases e with
      | openFail =>
          simp only [handleSessionStreams]
          omega
      | writeFail =>
          simp only [handleSessionStreams]
          omega
      | success =>
          by_cases hc : c + 1 = muxCon
          · simp only [handleSessionStreams, if_pos hc]
            omega
          · have h2 : c + 1 < muxCon := by omega
            have h3 := ih (c + 1) h2
            simp only [handleSessionStreams, if_neg hc]
            omega

/-- C7: every mux session opens at most MuxCon streams; on retirement
the handler emits its REQ_CHAN offer and waits for all of the session's
stream handlers strictly before the session close, which comes last. -/
theorem muxSession_stream_cap (muxCon : Nat) (h : 0 < muxCon)
    (evs : List StreamEvent) :
    handleSessionStreams muxCon 0 evs ≤ muxCon ∧
    ∀ c : Nat, ∃ pre : List FinalizeAction,
      finalizeSessionActions c = pre ++ [FinalizeAction.closeSession] ∧
      FinalizeAction.waitDone c ∈ pre ∧ FinalizeAction.offerReqChan ∈ pre := by
  constructor
  · have h1 := handleSessionStreams_le muxCon evs 0 h
    omega
  · intro c
    refine ⟨[FinalizeAction.signalNext, FinalizeAction.offerReqChan,
      FinalizeAction.waitDone c], rfl, by simp, by simp⟩

/-- Witness for C7: with MuxCon = 2 a burst of three successful stream
requests opens exactly two streams on the first session. -/
theorem muxSession_stream_cap_witness :
    handleSessionStreams 2 0
      [StreamEvent.success, StreamEvent.success, StreamEvent.success] ≤ 2 :=
  (muxSession_stream_cap 2 (by decide)
    [StreamEvent.success, StreamEvent.success, StreamEvent.success]).1

/-! ## Non-mux pairing loop (part_000 handleLoop) -/

inductive PairEvent where
  | droppedTunnel (t : Nat)
  | paired (l : Nat) (t : Nat)
deriving Repr, DecidableEq

/-- Non-mux pairing loop (part_000 handleLoop lines 408-436): the worker
reads one parked user connection from localChannel, then repeatedly
reads a tunnel connection and writes the tagged target address on it;
on write failure the tunnel connection is closed and the worker waits
for the next tunnel connection while keeping the same parked user
connection; on success the pair goes to the copier and the worker
returns to the local queue. Connections are named by Nat ids; the Bool
on a tunnel says whether the tagged write succeeds. -/
def handleLoopRun : List Nat → List (Nat × Bool) → List PairEvent
  | [], _ => []
  | _ :: _, [] => []
  | l :: ls, (t, ok) :: ts =>
      if ok then PairEvent.paired l t :: handleLoopRun ls ts
      else PairEvent.droppedTunnel t :: handleLoopRun (l :: ls) ts

/-- C8: when the tagged target-address write fails, the worker drops
that tunnel connection and retries with the next one while retaining
the same parked user connection; the first tunnel whose write succeeds
is paired with it, and the worker then returns to the local queue. -/
theorem handleLoop_write_failure_retry (l : Nat) (ls : List Nat)
    (fails : List (Nat × Bool)) (t : Nat) (rest : List (Nat × Bool))
    (h : ∀ p ∈ fails, p.2 = false) :
    handleLoopRun (l :: ls) (fails ++ (t, true) :: rest) =
      (fails.map fun p => PairEvent.droppedTunnel p.1) ++
        PairEvent.paired l t :: handleLoopRun ls rest := by
  induction fails with
  | nil => simp [handleLoopRun]
  | cons p ps ih =>
      obtain ⟨tp, okp⟩ := p
      have hp : okp = false := h (tp, okp) (by simp)
      subst hp
      have hrest : ∀ q ∈ ps, q.2 = false := fun q hq => h q (by simp [hq])
      simp [handleLoopRun, ih hrest]

/-- Witness for C8: user connection 1 survives the failed write on
tunnel 7, pairs with tunnel 9, and the worker goes back to the local
queue for user connection 2. -/
theorem handleLoop_write_failure_retry_witness :
    handleLoopRun (1 :: [2]) ([(7, false)] ++ (9, true) :: [(11, true)]) =
      ([(7, false)].map fun p => PairEvent.droppedTunnel p.1) ++
        PairEvent.paired 1 9 :: handleLoopRun [2] [(11, true)] :=
  handleLoop_write_failure_retry 1 [2] [(7, false)] 9 [(11, true)] (by decide)

end Backhaul
